import Mathlib

set_option maxRecDepth 4000

deriving instance DecidableEq for Except

namespace Poker

/-! Shallow embedding of the data-access layer of the PokerApp repository:
the `Base` class in `pokerApp/models/sql/__init__.py`, the `AppConfig`
model in `pokerApp/models/sql/app_config.py`, and `get_env_variable` in
`pokerApp/utils/utils.py`.  Async methods are embedded as pure functions
on an explicit session/database state; exceptions are embedded as
`Except` results. -/

/-- Python values as they appear in the row dictionaries handled by this
layer: `None` and strings (all seed data and natural keys are strings). -/
inductive Val where
  | null
  | s (v : String)
deriving DecidableEq

/-- Python truthiness for `Val`: `None` and the empty string are falsy. -/
def Val.truthy : Val → Bool
  | .null => false
  | .s v => !(v == "")

/-- A row dictionary: association list from column name to value. -/
abbrev Row := List (String × Val)

/-- Dictionary read `d.get(k)`: the binding of `k`, if any. -/
def rowGet : Row → String → Option Val
  | [], _ => none
  | (k1, v1) :: rest, k => if k1 = k then some v1 else rowGet rest k

/-- Dictionary write `d[k] = v`: replaces the binding in place, appends if
absent. -/
def rowSet : Row → String → Val → Row
  | [], k, v => [(k, v)]
  | (k1, v1) :: rest, k, v =>
    if k1 = k then (k, v) :: rest else (k1, v1) :: rowSet rest k v

/-- Dictionary delete `del d[k]`: removes the binding of `k` (row
dictionaries are built from Python dicts, so keys never repeat). -/
def rowDel : Row → String → Row
  | [], _ => []
  | (k1, v1) :: rest, k =>
    if k1 = k then rowDel rest k else (k1, v1) :: rowDel rest k

/-- Exceptions that the `Base` methods and the calls they make can raise.
`keyError` is Python's KeyError from a `dict[...]` read (`__init__.py`
lines 119, 120, 138); `attributeError` is `getattr` on a record lacking
the requested column (line 132); `typeError` is Python's TypeError, in
particular the one raised when entering `cls.get_async_session()` (see
`runScope`); `multipleResultsFound` is raised by
`Result.scalar_one_or_none` when more than one row matches (lines 127,
141); `notAValidForeignKey` and `elementAlreadyExists` are the typed
failures from `errors.sql`. -/
inductive Err where
  | keyError (k : String)
  | attributeError (k : String)
  | typeError (msg : String)
  | notAValidForeignKey
  | elementAlreadyExists
  | multipleResultsFound
deriving DecidableEq

/-- Failure raised by `get_env_variable` (`utils/utils.py` line 7). -/
inductive EnvError where
  | notFound (name : String)
deriving DecidableEq

/-- Embedding of `get_env_variable` (`utils/utils.py` lines 4-7): reads the
environment (a name-to-value map standing for `os.environ`), raises
`EnvironmentError` when the variable is missing or empty, and otherwise
falls off the end of the function body, i.e. returns Python `None`. -/
def getEnvVariable (env : String → Option String) (envName : String) :
    Except EnvError (Option String) :=
  match env envName with
  | none => .error (.notFound envName)
  | some v => if v = "" then .error (.notFound envName) else .ok none

/-- Embedding of the class-level binding `_db_url =
get_env_variable("POSTGRES_URI")` (`__init__.py` line 19). -/
def dbUrlResult (env : String → Option String) : Except EnvError (Option String) :=
  getEnvVariable env "POSTGRES_URI"

/-- The shape of one SQLAlchemy model as seen by `Base.__data_check`
through introspection: its table name, the result of
`Base.__get_foreign_keys` (column name, related table name, related
column name, `__init__.py` lines 68-83), and the result of
`Base.__get_unique_keys` (`__init__.py` lines 85-94). -/
structure Model where
  tableName : String
  fks : List (String × String × String)
  uniques : List String
deriving DecidableEq

/-- The `Base._models_dict` registry type: related table name to the
natural-key attribute used both as the alias read from the candidate row
and as the filter column of the lookup (`__init__.py` line 24). -/
abbrev Registry := List (String × String)

/-- Registry read with a `none` miss (the KeyError is raised at the use
site, `__init__.py` line 119). -/
def lookupReg (reg : Registry) (t : String) : Option String :=
  (reg.find? (fun p => p.1 == t)).map (fun p => p.2)

/-- Committed database state: the set of created table structures and the
committed rows of each table. -/
structure DB where
  schema : List String
  tables : List (String × List Row)
deriving DecidableEq

/-- Rows of table `t` in a table map. -/
def rowsOfT : List (String × List Row) → String → List Row
  | [], _ => []
  | (u, rs) :: rest, t => if u = t then rs else rowsOfT rest t

/-- Rows of table `t` committed in `db`. -/
def rowsOf (db : DB) (t : String) : List Row :=
  rowsOfT db.tables t

/-- Append a row to table `t` of a table map (creating the table entry if
needed). -/
def appendRow : List (String × List Row) → String → Row → List (String × List Row)
  | [], t, r => [(t, [r])]
  | (u, rs) :: rest, t, r =>
    if u = t then (u, rs ++ [r]) :: rest else (u, rs) :: appendRow rest t r

/-- One open SQLAlchemy `AsyncSession`: the committed state it reads from,
the rows flushed inside the current transaction, and the objects added to
the session but not yet flushed (`session.new`). -/
structure Session where
  db : DB
  flushed : List (String × Row)
  pend : List (String × Row)
deriving DecidableEq

/-- Rows of table `t` visible to a `session.execute(select ...)` inside the
session's transaction: committed rows, rows flushed in this transaction,
and pending added objects (the session autoflushes them before a query). -/
def visibleRows (s : Session) (t : String) : List Row :=
  rowsOf s.db t ++ (s.flushed.filter (fun p => p.1 == t)).map (fun p => p.2)
    ++ (s.pend.filter (fun p => p.1 == t)).map (fun p => p.2)

/-- Result of `select(table).filter_by(**{k: v})` executed on the session:
the visible rows of `table` whose column `k` equals `v`. -/
def matchRows (s : Session) (t : String) (k : String) (v : Val) : List Row :=
  (visibleRows s t).filter (fun r => rowGet r k == some v)

/-- Embedding of `Result.scalar_one_or_none`: `none` on zero rows, the row
on exactly one, and a `MultipleResultsFound` error on more than one. -/
def scalarOneOrNone (rows : List Row) : Except Err (Option Row) :=
  match rows with
  | [] => .ok none
  | [r] => .ok (some r)
  | _ => .error .multipleResultsFound

/-- One iteration of the foreign-key loop of `Base.__data_check`
(`__init__.py` lines 118-135): read the natural-key attribute of the
related table from `_models_dict` (KeyError on a miss, line 119), read its
value from the candidate row (KeyError on a miss, line 120); when the
value is truthy, look the related table up filtered on that attribute,
fail with `NotAValidForeignKey` on no match, store the matched record's
related column under the foreign-key column and delete the alias key
(lines 122-133); otherwise store an explicit `None` (line 135). -/
def fkStep (reg : Registry) (s : Session) (d : Row)
    (fk : String × String × String) : Except Err Row :=
  match fk with
  | (col, relTable, relCol) =>
    match lookupReg reg relTable with
    | none => .error (.keyError relTable)
    | some nk =>
      match rowGet d nk with
      | none => .error (.keyError nk)
      | some v =>
        if v.truthy then
          match scalarOneOrNone (matchRows s relTable nk v) with
          | .error e => .error e
          | .ok none => .error .notAValidForeignKey
          | .ok (some mr) =>
            match rowGet mr relCol with
            | none => .error (.attributeError relCol)
            | some w => .ok (rowDel (rowSet d col w) nk)
        else .ok (rowSet d col Val.null)

/-- The foreign-key loop of `Base.__data_check` over all foreign keys, in
declaration order, stopping at the first raised exception. -/
def fkFold (reg : Registry) (s : Session) :
    List (String × String × String) → Row → Except Err Row
  | [], d => .ok d
  | fk :: rest, d =>
    match fkStep reg s d fk with
    | .error e => .error e
    | .ok d1 => fkFold reg s rest d1

/-- One iteration of the unique-key loop of `Base.__data_check`
(`__init__.py` lines 137-143): read the column from the row (KeyError on a
miss, line 138); when truthy, look the model's own table up filtered on
that column and fail with `ElementAlreadyExists` when a record matches. -/
def uniqueStep (tableName : String) (s : Session) (d : Row) (col : String) :
    Except Err Unit :=
  match rowGet d col with
  | none => .error (.keyError col)
  | some v =>
    if v.truthy then
      match scalarOneOrNone (matchRows s tableName col v) with
      | .error e => .error e
      | .ok (some _) => .error .elementAlreadyExists
      | .ok none => .ok ()
    else .ok ()

/-- The unique-key loop of `Base.__data_check` over all unique columns, in
declaration order, stopping at the first raised exception. -/
def uniqueRun (tableName : String) (s : Session) :
    List String → Row → Except Err Unit
  | [], _ => .ok ()
  | col :: rest, d =>
    match uniqueStep tableName s d col with
    | .error e => .error e
    | .ok _ => uniqueRun tableName s rest d

/-- Embedding of `Base.__data_check` (`__init__.py` lines 96-145): run the
foreign-key loop, then the unique-key loop on the transformed row, then
construct the entity `cls(**data)` from the transformed row. -/
def dataCheck (M : Model) (reg : Registry) (s : Session) (data : Row) :
    Except Err Row :=
  match fkFold reg s M.fks data with
  | .error e => .error e
  | .ok d =>
    match uniqueRun M.tableName s M.uniques d with
    | .error e => .error e
    | .ok _ => .ok d

/-- Embedding of `session.flush(objs)` with an explicit object list: only
objects that are pending in the session are flushed; an object that was
never added to the session is not affected and nothing else is flushed. -/
def flushObjs (s : Session) (objs : List (String × Row)) : Session :=
  { s with
    flushed := s.flushed ++ s.pend.filter (fun p => objs.contains p),
    pend := s.pend.filter (fun p => !(objs.contains p)) }

/-- Embedding of `session.add` / `session.add_all`: queue the objects as
pending in the session. -/
def addAll (s : Session) (t : String) (objs : List Row) : Session :=
  { s with pend := s.pend ++ objs.map (fun r => (t, r)) }

/-- Committing a session: all flushed and pending rows become committed
rows of their tables, in order. -/
def commitS (s : Session) : DB :=
  { schema := s.db.schema,
    tables := (s.flushed ++ s.pend).foldl
      (fun tbs p => appendRow tbs p.1 p.2) s.db.tables }

/-- The transactional generator body of `Base.get_async_session`
(`__init__.py` lines 38-44): run the body on a fresh session over the
committed state; commit on normal completion, roll back (leaving the
committed state unchanged) and re-raise the original exception
otherwise.  Unreachable in the program — see `runScope`. -/
def scopeBody (db : DB) (body : Session → Except Err Session) : DB × Option Err :=
  match body (Session.mk db [] []) with
  | .ok s => (commitS s, none)
  | .error e => (db, some e)

/-- Embedding of `async with cls.get_async_session() as session: ...`
(`__init__.py` lines 27-29 with lines 154 and 167).  `get_async_session`
stacks `@asynccontextmanager` above `@classmethod`, so the class
attribute is `asynccontextmanager` applied to a raw classmethod object;
entering the context manager calls that object, and a classmethod object
is not callable, so the `async with` raises TypeError before a session is
created and before the scope's body ever runs.  The committed state is
untouched and the TypeError propagates to the caller; the commit and
rollback paths of `scopeBody` are unreachable. -/
def runScope (db : DB) (_body : Session → Except Err Session) : DB × Option Err :=
  (db, some (.typeError "classmethod object is not callable"))

/-- Embedding of `Base.insert` (`__init__.py` lines 147-156): its body
would validate the row and add the built object inside one session
scope, but the `async with` on line 154 raises TypeError (see
`runScope`) before `__data_check` ever runs. -/
def insertOne (M : Model) (reg : Registry) (db : DB) (data : Row) :
    DB × Option Err :=
  runScope db (fun s =>
    Except.map (fun obj => addAll s M.tableName [obj]) (dataCheck M reg s data))

/-- The loop of `Base.insert_many` (`__init__.py` lines 166-171) as
written: validate each row against the current session, call
`session.flush([obj])` on the freshly built object, and collect it into
`objects_to_insert`.  Unreachable in the program because the enclosing
scope is never entered (see `runScope`). -/
def insertManyGo (M : Model) (reg : Registry) :
    List Row → Session → List Row → Except Err (Session × List Row)
  | [], s, acc => .ok (s, acc)
  | r :: rest, s, acc =>
    match dataCheck M reg s r with
    | .error e => .error e
    | .ok obj =>
      insertManyGo M reg rest (flushObjs s [(M.tableName, obj)]) (acc ++ [obj])

/-- The body of `Base.insert_many` inside its session scope: the loop above
followed by `session.add_all(objects_to_insert)` (`__init__.py` line 172). -/
def insertManyBody (M : Model) (reg : Registry) (rows : List Row)
    (s : Session) : Except Err Session :=
  Except.map (fun pr => addAll pr.1 M.tableName pr.2) (insertManyGo M reg rows s [])

/-- Embedding of `Base.insert_many` (`__init__.py` lines 158-172): the body
above, run inside one `get_async_session` scope — which raises TypeError
at the `async with` on line 167 (see `runScope`), so no row is ever
validated, flushed or committed. -/
def insertMany (M : Model) (reg : Registry) (db : DB) (rows : List Row) :
    DB × Option Err :=
  runScope db (insertManyBody M reg rows)

/-- The `AppConfig` model (`app_config.py` lines 6-10) as seen by
introspection: table `app_configs`; no foreign-key columns; `description`
is the only column declared `unique=True` (`key` is the primary key and
`value` carries no unique flag, so `__get_unique_keys` returns only
`description`). -/
def appConfig : Model :=
  { tableName := "app_configs", fks := [], uniques := ["description"] }

/-- The eight seed rows declared in
`AppConfig.update_rows_to_insert_initially` (`app_config.py` lines 14-51). -/
def appConfigSeedRows : List Row :=
  [ [("key", .s "vat"), ("value", .s "0.2"),
     ("description", .s "Value-added tax rate")],
    [("key", .s "app_commission_match"), ("value", .s "0.05"),
     ("description", .s "Percentage commission the app earns from each match")],
    [("key", .s "app_commission_cashgame"), ("value", .s "0.075"),
     ("description", .s "Percentage commission the app earns from each cash game")],
    [("key", .s "basic_match_fee"), ("value", .s "2.50"),
     ("description", .s "Basic fee for a match")],
    [("key", .s "basic_cashgame_fee"), ("value", .s "20"),
     ("description", .s "Basic fee for a cash game")],
    [("key", .s "basic_big_blind_increasing"), ("value", .s "12"),
     ("description", .s "Amount by which the big blind increases in the game")],
    [("key", .s "basic_starting_big_blind"), ("value", .s "12"),
     ("description", .s "Starting big blind amount in the game")],
    [("key", .s "minimum_point_earned"), ("value", .s "40"),
     ("description", .s "Minimum points winners can earn")] ]

/-- The `Base._models_dict` registry as it stands in the running program
(`__init__.py` line 24): initialized to the empty dict at class creation,
and no statement anywhere in the repository ever writes an entry into it. -/
def modelsDict : Registry := []

/-- The `Base.models_to_insert_initially` registry as it stands when
`init_db` runs (`__init__.py` line 25): initialized to the empty dict, and
its only writer, `AppConfig.update_rows_to_insert_initially`
(`app_config.py` lines 12-53), is never called anywhere in the repository,
`import_all_sql_models` included. -/
def modelsToInsertInitially : List (Model × List Row) := []

/-- Embedding of `AppConfig.update_rows_to_insert_initially`
(`app_config.py` lines 12-53): registers the eight seed rows for the
`AppConfig` model.  Defined but never invoked by any repository code. -/
def updateRowsToInsertInitially (m : List (Model × List Row)) :
    List (Model × List Row) :=
  m ++ [(appConfig, appConfigSeedRows)]

/-- Embedding of the loop of `Base.__insert_initial_data` (`__init__.py`
lines 46-54), generic in the registry contents: for each registered model
the statement `model_to_insert.insert_many(rows_to_insert)` (line 54)
calls the async method without `await`, producing a coroutine object that
is immediately discarded — its body never runs, so the database state is
threaded through unchanged. -/
def insertInitialDataGen (entries : List (Model × List Row)) (db : DB) : DB :=
  entries.foldl (fun acc e =>
    let _unawaitedCoroutine := insertMany e.1 modelsDict acc e.2
    acc) db

/-- Embedding of `Base.__insert_initial_data` as called by `init_db`: the
loop above over `Base.models_to_insert_initially`. -/
def insertInitialData (db : DB) : DB :=
  insertInitialDataGen modelsToInsertInitially db

/-- Embedding of `metadata.create_all` (`__init__.py` line 65): creates the
table structures of every registered model; creating an existing table is
a no-op.  `names` is the list of table names registered by
`import_all_sql_models`. -/
def createAll (names : List String) (db : DB) : DB :=
  { db with schema :=
      names.foldl (fun sch t => if sch.contains t then sch else sch ++ [t]) db.schema }

/-- Embedding of `Base.init_db` (`__init__.py` lines 56-66): register all
models, materialize the table structures, then run
`__insert_initial_data`. -/
def initDb (names : List String) (db : DB) : DB :=
  insertInitialData (createAll names db)

/-- An empty database: no tables created, no rows committed. -/
def db0 : DB := { schema := [], tables := [] }

/-- A fresh session over the empty database. -/
def s0 : Session := Session.mk db0 [] []

/-- A sample foreign-key-bearing model shape used as a concrete input to
`dataCheck`: a `children` table whose `parent_id` column references column
`id` of table `parents`. -/
def mChild : Model :=
  { tableName := "children", fks := [("parent_id", "parents", "id")], uniques := [] }

/-- The `mChild` shape extended with a unique column `nick`, used to
exercise the interaction of foreign-key and uniqueness failures. -/
def mChildU : Model :=
  { tableName := "children", fks := [("parent_id", "parents", "id")],
    uniques := ["nick"] }

/-- A registry entry declaring `name` as the natural-key attribute of the
`parents` table. -/
def regP : Registry := [("parents", "name")]

/-- Validation of a list of rows in which every row is checked against one
fixed session state, stopping at the first failure.  Used to characterize
what the `insert_many` loop actually computes. -/
def checkedRows (chk : Row → Except Err Row) : List Row → Except Err (List Row)
  | [] => .ok []
  | r :: rest =>
    match chk r with
    | .error e => .error e
    | .ok obj =>
      match checkedRows chk rest with
      | .error e => .error e
      | .ok objs => .ok (obj :: objs)

/-! Helper lemmas. -/

theorem flushObjs_no_pending (db : DB) (fl : List (String × Row))
    (objs : List (String × Row)) :
    flushObjs (Session.mk db fl []) objs = Session.mk db fl [] := by
  simp [flushObjs]

theorem insertManyGo_eq (M : Model) (reg : Registry) (db : DB) :
    ∀ (rows acc : List Row),
      insertManyGo M reg rows (Session.mk db [] []) acc =
        Except.map (fun objs => (Session.mk db [] [], acc ++ objs))
          (checkedRows (dataCheck M reg (Session.mk db [] [])) rows) := by
  intro rows
  induction rows with
  | nil => intro acc; simp [insertManyGo, checkedRows, Except.map]
  | cons r rest ih =>
    intro acc
    cases h : dataCheck M reg (Session.mk db [] []) r with
    | error e => simp [insertManyGo, checkedRows, h, Except.map]
    | ok obj =>
      simp only [insertManyGo, checkedRows, h]
      rw [flushObjs_no_pending, ih (acc ++ [obj])]
      cases h2 : checkedRows (dataCheck M reg (Session.mk db [] [])) rest with
      | error e => simp [h2, Except.map]
      | ok objs => simp [h2, Except.map]

theorem checkedRows_length (chk : Row → Except Err Row) :
    ∀ (rows objs : List Row), checkedRows chk rows = .ok objs →
      objs.length = rows.length := by
  intro rows
  induction rows with
  | nil =>
    intro objs h
    simp [checkedRows] at h
    subst h; rfl
  | cons r rest ih =>
    intro objs h
    simp only [checkedRows] at h
    cases h1 : chk r with
    | error e => rw [h1] at h; exact absurd h (by simp)
    | ok obj =>
      rw [h1] at h
      cases h2 : checkedRows chk rest with
      | error e => rw [h2] at h; exact absurd h (by simp)
      | ok os =>
        rw [h2] at h
        simp only [Except.ok.injEq] at h
        subst h
        simp [ih os h2]

theorem rowsOfT_appendRow_same (t : String) (r : Row) :
    ∀ tbs : List (String × List Row),
      rowsOfT (appendRow tbs t r) t = rowsOfT tbs t ++ [r] := by
  intro tbs
  induction tbs with
  | nil => simp [appendRow, rowsOfT]
  | cons p rest ih =>
    obtain ⟨u, rs⟩ := p
    by_cases hu : u = t
    · simp [appendRow, rowsOfT, hu]
    · simp [appendRow, rowsOfT, hu, ih]

theorem rowsOfT_appendRow_other (t u : String) (r : Row) (hne : t ≠ u) :
    ∀ tbs : List (String × List Row),
      rowsOfT (appendRow tbs t r) u = rowsOfT tbs u := by
  intro tbs
  induction tbs with
  | nil => simp [appendRow, rowsOfT, hne]
  | cons p rest ih =>
    obtain ⟨w, rs⟩ := p
    by_cases hw : w = t
    · subst hw
      simp [appendRow, rowsOfT, hne]
    · simp [appendRow, rowsOfT, hw, ih]

theorem rowsOfT_commit_fold_same (t : String) :
    ∀ (objs : List Row) (tbs : List (String × List Row)),
      rowsOfT (objs.foldl (fun a r => appendRow a t r) tbs) t =
        rowsOfT tbs t ++ objs := by
  intro objs
  induction objs with
  | nil => intro tbs; simp
  | cons o os ih =>
    intro tbs
    simp only [List.foldl_cons]
    rw [ih, rowsOfT_appendRow_same]
    simp

theorem rowsOfT_commit_fold_other (t u : String) (hne : t ≠ u) :
    ∀ (objs : List Row) (tbs : List (String × List Row)),
      rowsOfT (objs.foldl (fun a r => appendRow a t r) tbs) u = rowsOfT tbs u := by
  intro objs
  induction objs with
  | nil => intro tbs; simp
  | cons o os ih =>
    intro tbs
    simp only [List.foldl_cons]
    rw [ih, rowsOfT_appendRow_other t u o hne]

theorem insertInitialDataGen_id :
    ∀ (entries : List (Model × List Row)) (db : DB),
      insertInitialDataGen entries db = db := by
  intro entries
  induction entries with
  | nil => intro db; rfl
  | cons e rest ih =>
    intro db
    have h : insertInitialDataGen (e :: rest) db = insertInitialDataGen rest db := by
      simp [insertInitialDataGen]
    rw [h, ih]

theorem rowGet_rowSet_self (k : String) (v : Val) :
    ∀ d : Row, rowGet (rowSet d k v) k = some v := by
  intro d
  induction d with
  | nil => simp [rowSet, rowGet]
  | cons q rest ih =>
    obtain ⟨k1, v1⟩ := q
    by_cases hq : k1 = k
    · simp [rowSet, rowGet, hq]
    · simp [rowSet, rowGet, hq, ih]

theorem rowGet_rowDel_self (k : String) :
    ∀ d : Row, rowGet (rowDel d k) k = none := by
  intro d
  induction d with
  | nil => simp [rowDel, rowGet]
  | cons q rest ih =>
    obtain ⟨k1, v1⟩ := q
    by_cases hq : k1 = k
    · simp [rowDel, hq, ih]
    · simp [rowDel, rowGet, hq, ih]

theorem rowGet_rowDel_other (k k2 : String) (hne : k2 ≠ k) :
    ∀ d : Row, rowGet (rowDel d k) k2 = rowGet d k2 := by
  intro d
  induction d with
  | nil => simp [rowDel]
  | cons q rest ih =>
    obtain ⟨k1, v1⟩ := q
    by_cases hq : k1 = k
    · simp [rowDel, rowGet, hq, Ne.symm hne, ih]
    · simp [rowDel, rowGet, hq, ih]

/-- A parent row used as a concrete referenced record. -/
def pAlice : Row := [("id", Val.s "7"), ("name", Val.s "alice")]

/-- A database whose `parents` table holds exactly one row, `pAlice`. -/
def dbOneParent : DB := { schema := [], tables := [("parents", [pAlice])] }

/-- A database whose `parents` table holds the same natural key twice. -/
def dbTwoParents : DB := { schema := [], tables := [("parents", [pAlice, pAlice])] }

/-- A database whose `children` table already holds a row with unique
column `nick` set to `n1`, and whose `parents` table is empty. -/
def dbNick : DB := { schema := [], tables := [("children", [[("nick", Val.s "n1")]])] }

/-! Claims. -/

/-- C1: the claim fails on the code.  `init_db()` performs no seed
insertion at all: `models_to_insert_initially` is never populated (its
only writer, `AppConfig.update_rows_to_insert_initially`, is never
called), and the `insert_many` call in `__insert_initial_data` (line 54)
is not awaited, so the coroutine it produces is discarded and its body
never runs.  The eight AppConfig seed rows are declared but never
persisted: after `init_db` the committed tables are exactly what they
were before — and they would still be even if the seed registry were
populated, since the un-awaited loop leaves the database unchanged for
every registry contents. -/
theorem init_db_persists_no_seed_rows :
    appConfigSeedRows.length = 8 ∧
    (∀ (names : List String) (db : DB), (initDb names db).tables = db.tables) ∧
    (∀ (entries : List (Model × List Row)) (db : DB),
       insertInitialDataGen entries db = db) := by
  refine ⟨rfl, ?_, insertInitialDataGen_id⟩
  intro names db
  rw [initDb, insertInitialData, insertInitialDataGen_id]
  rfl

/-- C2: the claim fails on the code, twice over.  First, `insert_many`
never validates or flushes anything: the `async with` at line 167 raises
TypeError when entering `cls.get_async_session()` (see `runScope`), so a
batch of two rows carrying the same non-empty unique `description` —
which per the claim would have the second row observe the first — dies
with TypeError, committing nothing (second conjunct).  Second, the loop
as written (lines 166-171), were the scope ever entered, would still not
make later rows observe earlier ones: `session.flush([obj])` runs before
the object is added to the session (`add_all` only runs after the loop),
so the restricted flush flushes nothing and every row of the batch is
validated against the batch-initial session state, blind to all earlier
rows of the same call (first conjunct: the loop is extensionally the
per-row check against the fixed initial session). -/
theorem insert_many_rows_validated_blind :
    (∀ (M : Model) (reg : Registry) (db : DB) (rows acc : List Row),
       insertManyGo M reg rows (Session.mk db [] []) acc =
         Except.map (fun objs => (Session.mk db [] [], acc ++ objs))
           (checkedRows (dataCheck M reg (Session.mk db [] [])) rows)) ∧
    insertMany appConfig [] db0
      [[("key", .s "x"), ("value", .s "1"), ("description", .s "d1")],
       [("key", .s "y"), ("value", .s "2"), ("description", .s "d1")]] =
      (db0, some (.typeError "classmethod object is not callable")) :=
  ⟨fun M reg db rows acc => insertManyGo_eq M reg db rows acc, rfl⟩

/-- C3: `get_env_variable` either raises `EnvironmentError` (variable
absent or empty) or falls off the end of its body and returns `None` —
it never returns the variable's value; hence `_db_url`, bound at `Base`
class definition from `POSTGRES_URI`, is `None` whenever that variable
is set to a non-empty value. -/
theorem get_env_variable_never_returns_value :
    (∀ (env : String → Option String) (n : String),
       getEnvVariable env n = .error (.notFound n) ∨
       getEnvVariable env n = .ok none) ∧
    (∀ (env : String → Option String) (v : String),
       env "POSTGRES_URI" = some v → v ≠ "" → dbUrlResult env = .ok none) := by
  constructor
  · intro env n
    rw [getEnvVariable]
    cases env n with
    | none => left; rfl
    | some v =>
      by_cases h : v = ""
      · left; simp [h]
      · right; simp [h]
  · intro env v hset hne
    rw [dbUrlResult, getEnvVariable, hset]
    simp [hne]

theorem get_env_variable_never_returns_value_witness :
    dbUrlResult (fun n => if n = "POSTGRES_URI" then some "postgres" else none) =
      .ok none :=
  get_env_variable_never_returns_value.2
    (fun n => if n = "POSTGRES_URI" then some "postgres" else none) "postgres"
    (by decide) (by decide)

/-- C5: the claim fails on the code.  The session scope can never be
entered: `get_async_session` stacks `@asynccontextmanager` above
`@classmethod`, so the `async with` at lines 154 and 167 calls a raw
classmethod object and raises TypeError before the scope's body runs —
contradicting the method's own docstring ("Ensures that changes are
committed after the operation is complete, or rolled back if an error
occurs").  Consequently the scope never commits anything, never rolls a
body error back, and never re-raises a body error: for every model,
registry, database and batch, `insert_many` (and any use of the scope)
leaves the committed state untouched and surfaces the TypeError, never
the body's own outcome. -/
theorem session_scope_never_entered :
    ∀ (db : DB) (body : Session → Except Err Session) (M : Model)
      (reg : Registry) (rows : List Row),
      runScope db body =
        (db, some (.typeError "classmethod object is not callable")) ∧
      insertMany M reg db rows =
        (db, some (.typeError "classmethod object is not callable")) := by
  intro db body M reg rows
  exact ⟨rfl, rfl⟩

/-- C4 counterexample: the claim is false for rows from which the
natural-key alias is entirely absent — `data[foreign_key_attr]` (line
120) raises KeyError instead of setting the foreign-key column to null.
Concretely, for a `children` model referencing `parents` (natural key
`name`), the row `{"x": "1"}` makes `__data_check` raise
KeyError("name") rather than complete with `parent_id = None`. -/
theorem fk_alias_absent_raises_key_error :
    dataCheck mChild regP s0 [("x", Val.s "1")] = .error (.keyError "name") := by
  decide

/-- C4 amended: when the natural-key alias is present but empty (falsy),
the foreign-key column is set to an explicit null and validation
completes without raising any error for that column; a row from which
the alias key is entirely absent instead raises KeyError. -/
theorem fk_alias_empty_sets_null :
    ∀ (reg : Registry) (s : Session) (d : Row) (c rt rc nk : String) (v : Val),
      lookupReg reg rt = some nk →
      rowGet d nk = some v →
      v.truthy = false →
      fkStep reg s d (c, rt, rc) = .ok (rowSet d c Val.null) ∧
      (∀ M : Model, M.fks = [(c, rt, rc)] → M.uniques = [] →
         dataCheck M reg s d = .ok (rowSet d c Val.null)) := by
  intro reg s d c rt rc nk v hreg hget htr
  have hstep : fkStep reg s d (c, rt, rc) = .ok (rowSet d c Val.null) := by
    simp [fkStep, hreg, hget, htr]
  refine ⟨hstep, ?_⟩
  intro M hfks huniq
  rw [dataCheck, hfks, huniq]
  simp [fkFold, hstep, uniqueRun]

theorem fk_alias_empty_sets_null_witness :
    dataCheck mChild regP s0 [("name", Val.s ""), ("x", Val.s "1")] =
      .ok (rowSet [("name", Val.s ""), ("x", Val.s "1")] "parent_id" Val.null) :=
  (fk_alias_empty_sets_null regP s0 [("name", Val.s ""), ("x", Val.s "1")]
      "parent_id" "parents" "id" "name" (Val.s "")
      (by decide) (by decide) (by decide)).2 mChild rfl rfl

/-- C6 counterexample: the claim is false for rows from which the unique
column is entirely absent — `data[col]` (line 138) raises KeyError
instead of skipping the check.  Concretely, inserting a row without a
`description` key into `AppConfig` raises KeyError("description")
rather than completing unchecked. -/
theorem unique_absent_raises_key_error :
    dataCheck appConfig [] s0 [("key", Val.s "x"), ("value", Val.s "1")] =
      .error (.keyError "description") := by
  decide

/-- C6 amended: for the `AppConfig` model, validation fails with
`ElementAlreadyExists` exactly when the row supplies a non-empty value
for the unique `description` column and exactly one row with that value
is visible in the current session (two or more matches raise
`MultipleResultsFound` from `scalar_one_or_none` instead); rows
supplying an empty value are not checked, and a row from which the
unique column is entirely absent raises KeyError rather than being
skipped. -/
theorem unique_check_characterized :
    ∀ (reg : Registry) (s : Session) (d : Row),
      dataCheck appConfig reg s d = .error .elementAlreadyExists ↔
        ∃ v, rowGet d "description" = some v ∧ v.truthy = true ∧
          (matchRows s "app_configs" "description" v).length = 1 := by
  intro reg s d
  cases hg : rowGet d "description" with
  | none =>
    have hdc : dataCheck appConfig reg s d = .error (.keyError "description") := by
      simp [dataCheck, appConfig, fkFold, uniqueRun, uniqueStep, hg]
    rw [hdc]
    simp [hg]
  | some v =>
    by_cases ht : v.truthy = true
    · cases hm : matchRows s "app_configs" "description" v with
      | nil =>
        have hdc : dataCheck appConfig reg s d = .ok d := by
          simp [dataCheck, appConfig, fkFold, uniqueRun, uniqueStep, hg, ht, hm,
            scalarOneOrNone]
        rw [hdc]
        simp [hg, ht, hm]
      | cons r rest =>
        cases rest with
        | nil =>
          have hdc : dataCheck appConfig reg s d = .error .elementAlreadyExists := by
            simp [dataCheck, appConfig, fkFold, uniqueRun, uniqueStep, hg, ht, hm,
              scalarOneOrNone]
          rw [hdc]
          simp only [true_iff]
          exact ⟨v, rfl, ht, by rw [hm]; rfl⟩
        | cons r2 rest2 =>
          have hdc : dataCheck appConfig reg s d = .error .multipleResultsFound := by
            simp [dataCheck, appConfig, fkFold, uniqueRun, uniqueStep, hg, ht, hm,
              scalarOneOrNone]
          rw [hdc]
          simp [hg, ht, hm]
    · have hdc : dataCheck appConfig reg s d = .ok d := by
        simp [dataCheck, appConfig, fkFold, uniqueRun, uniqueStep, hg, ht]
      rw [hdc]
      simp [hg, ht]

/-- C7: when the natural-key alias value of a foreign-key column matches
exactly one visible row of the referenced table, the constructed
entity's foreign-key column holds the matched row's referenced-column
value, and the natural-key alias field is removed from the row and
absent from the constructed entity. -/
theorem fk_resolution_single_match :
    ∀ (M : Model) (reg : Registry) (s : Session) (d : Row)
      (c rt rc nk : String) (v : Val) (r : Row) (w : Val),
      M.fks = [(c, rt, rc)] → M.uniques = [] →
      lookupReg reg rt = some nk →
      rowGet d nk = some v → v.truthy = true →
      matchRows s rt nk v = [r] →
      rowGet r rc = some w →
      nk ≠ c →
      dataCheck M reg s d = .ok (rowDel (rowSet d c w) nk) ∧
      rowGet (rowDel (rowSet d c w) nk) c = some w ∧
      rowGet (rowDel (rowSet d c w) nk) nk = none := by
  intro M reg s d c rt rc nk v r w hfks huniq hreg hget htr hmatch hrc hnc
  have hstep : fkStep reg s d (c, rt, rc) = .ok (rowDel (rowSet d c w) nk) := by
    simp [fkStep, hreg, hget, htr, hmatch, scalarOneOrNone, hrc]
  refine ⟨?_, ?_, rowGet_rowDel_self nk _⟩
  · rw [dataCheck, hfks, huniq]
    simp [fkFold, hstep, uniqueRun]
  · rw [rowGet_rowDel_other nk c (Ne.symm hnc)]
    exact rowGet_rowSet_self c w d

theorem fk_resolution_single_match_witness :
    dataCheck mChild regP (Session.mk dbOneParent [] [])
        [("name", Val.s "alice"), ("x", Val.s "1")] =
      .ok (rowDel
        (rowSet [("name", Val.s "alice"), ("x", Val.s "1")] "parent_id" (Val.s "7"))
        "name") :=
  (fk_resolution_single_match mChild regP (Session.mk dbOneParent [] [])
      [("name", Val.s "alice"), ("x", Val.s "1")] "parent_id" "parents" "id" "name"
      (Val.s "alice") pAlice (Val.s "7") rfl rfl (by decide) (by decide) (by decide)
      (by decide) (by decide) (by decide)).1

/-- C8: with a truthy natural-key alias value, a lookup matching zero rows
of the referenced table makes `__data_check` raise `NotAValidForeignKey`
— so the row's construction never happens and no candidate entity is
produced; a lookup matching more than one row makes
`scalar_one_or_none` raise `MultipleResultsFound` — the engine fails
loudly rather than silently picking one match. -/
theorem fk_zero_or_many_matches_fail :
    ∀ (M : Model) (reg : Registry) (s : Session) (d : Row)
      (c rt rc nk : String) (v : Val),
      M.fks = [(c, rt, rc)] →
      lookupReg reg rt = some nk →
      rowGet d nk = some v → v.truthy = true →
      (matchRows s rt nk v = [] →
         dataCheck M reg s d = .error .notAValidForeignKey) ∧
      (∀ (r1 r2 : Row) (rest : List Row),
         matchRows s rt nk v = r1 :: r2 :: rest →
         dataCheck M reg s d = .error .multipleResultsFound) := by
  intro M reg s d c rt rc nk v hfks hreg hget htr
  constructor
  · intro hm
    rw [dataCheck, hfks]
    simp [fkFold, fkStep, hreg, hget, htr, hm, scalarOneOrNone]
  · intro r1 r2 rest hm
    rw [dataCheck, hfks]
    simp [fkFold, fkStep, hreg, hget, htr, hm, scalarOneOrNone]

theorem fk_zero_or_many_matches_fail_witness :
    dataCheck mChild regP s0 [("name", Val.s "bob")] =
      .error .notAValidForeignKey ∧
    dataCheck mChild regP (Session.mk dbTwoParents [] []) [("name", Val.s "alice")] =
      .error .multipleResultsFound := by
  constructor
  · exact (fk_zero_or_many_matches_fail mChild regP s0 [("name", Val.s "bob")]
      "parent_id" "parents" "id" "name" (Val.s "bob") rfl (by decide) (by decide)
      (by decide)).1 (by decide)
  · exact (fk_zero_or_many_matches_fail mChild regP (Session.mk dbTwoParents [] [])
      [("name", Val.s "alice")] "parent_id" "parents" "id" "name" (Val.s "alice")
      rfl (by decide) (by decide) (by decide)).2 pAlice pAlice [] (by decide)

/-- C9: foreign-key resolution runs strictly before uniqueness checking in
`__data_check`: on a row that both carries an invalid foreign key
(truthy alias value matching no referenced row) and duplicates a
non-empty unique value already visible in the session, the failure
raised is `NotAValidForeignKey`, never `ElementAlreadyExists`. -/
theorem fk_failure_reported_before_unique :
    ∀ (M : Model) (reg : Registry) (s : Session) (d : Row)
      (c rt rc u nk : String) (v w : Val),
      M.fks = [(c, rt, rc)] → M.uniques = [u] →
      lookupReg reg rt = some nk →
      rowGet d nk = some v → v.truthy = true →
      matchRows s rt nk v = [] →
      rowGet d u = some w → w.truthy = true →
      1 ≤ (matchRows s M.tableName u w).length →
      dataCheck M reg s d = .error .notAValidForeignKey ∧
      dataCheck M reg s d ≠ .error .elementAlreadyExists := by
  intro M reg s d c rt rc u nk v w hfks _huniq hreg hget htr hm _hu1 _hu2 _hu3
  have hdc : dataCheck M reg s d = .error .notAValidForeignKey := by
    rw [dataCheck, hfks]
    simp [fkFold, fkStep, hreg, hget, htr, hm, scalarOneOrNone]
  exact ⟨hdc, by rw [hdc]; simp⟩

theorem fk_failure_reported_before_unique_witness :
    dataCheck mChildU regP (Session.mk dbNick [] [])
      [("name", Val.s "bob"), ("nick", Val.s "n1")] =
      .error .notAValidForeignKey :=
  (fk_failure_reported_before_unique mChildU regP (Session.mk dbNick [] [])
      [("name", Val.s "bob"), ("nick", Val.s "n1")] "parent_id" "parents" "id"
      "nick" "name" (Val.s "bob") (Val.s "n1") rfl rfl (by decide) (by decide)
      (by decide) (by decide) (by decide) (by decide) (by decide)).1

/-- C10: `Base._models_dict` is initialized to the empty dict (line 24)
and no statement in the repository ever writes an entry into it, so it
stays empty; consequently, for every model shape declaring at least one
foreign-key column, `__data_check` fails with the KeyError of the
registry lookup on its first foreign key (line 119), before any
`NotAValidForeignKey` or `ElementAlreadyExists` check can run. -/
theorem models_dict_empty_fk_always_key_error :
    modelsDict = [] ∧
    (∀ (M : Model) (s : Session) (d : Row) (c rt rc : String)
       (rest : List (String × String × String)),
       M.fks = (c, rt, rc) :: rest →
       dataCheck M modelsDict s d = .error (.keyError rt)) := by
  refine ⟨rfl, ?_⟩
  intro M s d c rt rc rest hfks
  rw [dataCheck, hfks]
  simp [fkFold, fkStep, lookupReg, modelsDict]

theorem models_dict_empty_fk_always_key_error_witness :
    dataCheck mChild modelsDict s0 [("name", Val.s "alice")] =
      .error (.keyError "parents") :=
  models_dict_empty_fk_always_key_error.2 mChild s0 [("name", Val.s "alice")]
    "parent_id" "parents" "id" [] rfl

end Poker
